import Mathlib

/-!
Verification development for the psyche-lab core (backend/core).

Shallow embedding of the three core modules:
* `brain_manager.py`  — `Brain`, `BrainManager` (analyzer-unit lifecycle),
* `memory_system.py`  — `MemoryEntry`, `MemorySystem` (tiered memory with abstraction),
* `learning_engine.py` — `Theory`, `LearningEngine` (hypothesis scoring and evolution).

Modelling conventions:
* Python floats are modelled as exact rationals (`ℚ`).
* A Python dict with uuid keys is modelled as a `List` of records each carrying its
  id; ids are drawn from a `nextId` counter (uuid freshness).  Insertion of a fresh
  key appends (Python dicts preserve insertion order), deletion filters by id.
* `datetime` values are modelled as integer timestamps in seconds; Python's
  `timedelta.days` is floor division by 86400 (`Int.fdiv`).
* Database calls are best-effort side channels that never affect the in-memory
  state; they are omitted.
* Opaque payloads (`content` dicts, hypothesis strings) are kept only to the
  extent a claim observes them.
-/

/-! ## brain_manager.py -/

/-- One specialized analyzer unit (`class Brain`). -/
structure Brain where
  id : Nat
  role : String
  strength : ℚ
  active : Bool
  analysisCount : Nat
deriving DecidableEq

/-- `Brain.__init__`: strength 0.5, active, zero analyses. -/
def mkBrain (id : Nat) (role : String) : Brain :=
  { id := id, role := role, strength := 1/2, active := true, analysisCount := 0 }

/-- `Brain.update_strength`: exponential moving average
`strength = 0.8 * strength + 0.2 * feedback`. -/
def Brain.update_strength (b : Brain) (feedback : ℚ) : Brain :=
  { b with strength := 4/5 * b.strength + 1/5 * feedback }

/-- The output of one `Brain.analyze` call (the analysis dict):
`confidence` is the unit's strength at call time. -/
structure Finding where
  brain_id : Nat
  role : String
  confidence : ℚ
deriving DecidableEq

/-- `Brain.analyze`: increments `analysis_count` and returns the analysis dict. -/
def Brain.analyze (b : Brain) : Finding × Brain :=
  ({ brain_id := b.id, role := b.role, confidence := b.strength },
   { b with analysisCount := b.analysisCount + 1 })

/-- `class BrainManager`: the ordered map `self.brains` plus the id supply. -/
structure BrainManager where
  brains : List Brain
  nextId : Nat
deriving DecidableEq

/-- `BrainManager.create_brain`: allocates a fresh unit and inserts it. -/
def BrainManager.create_brain (bm : BrainManager) (role : String) : Brain × BrainManager :=
  let b := mkBrain bm.nextId role
  (b, { brains := bm.brains ++ [b], nextId := bm.nextId + 1 })

/-- `BrainManager.terminate_brain`: if the id is present, marks the unit inactive
and deletes it from `self.brains`; the net in-memory effect is removal by id
(no-op on an absent id). -/
def BrainManager.terminate_brain (bm : BrainManager) (id : Nat) : BrainManager :=
  { bm with brains := bm.brains.filter (fun b => !(b.id == id)) }

/-- The `ValueError("Need at least 2 brains to merge")` raised by `merge_brains`. -/
inductive MergeError where
  | insufficientUnits
deriving DecidableEq

/-- Strength of the unit with a given id, 0 when absent (lookup helper used to
state claims about `merge_brains`). -/
def strengthOf (bm : BrainManager) (i : Nat) : ℚ :=
  ((bm.brains.find? (fun b => b.id == i)).map Brain.strength).getD 0

/-- `BrainManager.merge_brains`: raises on fewer than 2 supplied ids; otherwise
sums the strengths of those supplied ids that are present, divides by the number
of supplied ids, creates the merged unit, sets its strength to
`min(1.0, merged_strength * 1.2)`, then terminates each source id. -/
def BrainManager.merge_brains (bm : BrainManager) (brain_ids : List Nat) (new_role : String) :
    Except MergeError (Brain × BrainManager) :=
  if brain_ids.length < 2 then .error .insufficientUnits
  else
    let merged_strength : ℚ :=
      (brain_ids.filterMap
        (fun bid => (bm.brains.find? (fun b => b.id == bid)).map Brain.strength)).sum /
        brain_ids.length
    let created := bm.create_brain new_role
    let mb := { created.1 with strength := min 1 (merged_strength * (6/5)) }
    let bm2 := { created.2 with
                  brains := created.2.brains.map (fun b => if b.id == mb.id then mb else b) }
    let bm3 := brain_ids.foldl (fun acc bid => acc.terminate_brain bid) bm2
    .ok (mb, bm3)

/-- `BrainManager.get_active_brains`. -/
def BrainManager.get_active_brains (bm : BrainManager) : List Brain :=
  bm.brains.filter (fun b => b.active)

/-- `BrainManager.analyze_with_all_brains`: fan-out over the active units with a
per-unit `try/except`.  `raises` is the failure oracle: it marks the units whose
`analyze` call raises an exception (the stub `Brain.analyze` itself cannot raise;
the oracle models an arbitrary unit implementation).  A raising unit contributes
no finding; the exception is caught and never propagated. -/
def BrainManager.analyze_with_all_brains (bm : BrainManager) (raises : Brain → Bool) :
    List Finding :=
  bm.get_active_brains.filterMap (fun b => if raises b then none else some (b.analyze).1)

/-! ## memory_system.py -/

/-- One memory entry (`class MemoryEntry`); `source_memories` is the
`source_memories` list of a pattern/belief content dict (empty for raw entries). -/
structure MemoryEntry where
  id : Nat
  memory_type : String
  abstraction_level : Nat
  created_at : Int
  access_count : Nat
  importance : ℚ
  source_memories : List Nat
deriving DecidableEq

/-- `class MemorySystem`: the two in-memory tiers plus the id supply. -/
structure MemorySystem where
  short_term_memory : List MemoryEntry
  working_memory : List MemoryEntry
  nextId : Nat
deriving DecidableEq

/-- `abstraction_thresholds['raw_to_pattern']`. -/
def raw_to_pattern_threshold : Nat := 5

/-- A `MemorySystem` whose tiers start empty (fresh store: the database holds no
recent memories to load). -/
def mkMemorySystem : MemorySystem :=
  { short_term_memory := [], working_memory := [], nextId := 0 }

/-- Stable insertion step for sorting by `created_at` (Python's stable `sorted`
with `key=lambda m: m.created_at`). -/
def insertByCreated (x : MemoryEntry) : List MemoryEntry → List MemoryEntry
  | [] => [x]
  | y :: ys => if y.created_at ≤ x.created_at then y :: insertByCreated x ys else x :: y :: ys

/-- Stable sort by `created_at`. -/
def sortByCreated (l : List MemoryEntry) : List MemoryEntry :=
  l.foldl (fun acc x => insertByCreated x acc) []

/-- `MemorySystem._abstract_to_pattern`: select the oldest
`raw_to_pattern_threshold` short-term entries, synthesize a level-1 pattern
entry (importance 0.7) referencing their ids into working memory, then for each
source entry halve its importance and delete it from `short_term_memory`
(`del self.short_term_memory[raw_mem.id]`). -/
def MemorySystem.abstract_to_pattern (ms : MemorySystem) (now : Int) : MemorySystem :=
  let raw_memories := (sortByCreated ms.short_term_memory).take raw_to_pattern_threshold
  let src_ids := raw_memories.map MemoryEntry.id
  let pattern : MemoryEntry :=
    { id := ms.nextId, memory_type := "pattern", abstraction_level := 1,
      created_at := now, access_count := 0, importance := 7/10, source_memories := src_ids }
  { short_term_memory :=
      (ms.short_term_memory.map
        (fun m => if src_ids.contains m.id then { m with importance := m.importance * (1/2) } else m)).filter
        (fun m => !(src_ids.contains m.id)),
    working_memory := ms.working_memory ++ [pattern],
    nextId := ms.nextId + 1 }

/-- `MemorySystem._abstract_to_belief`: if at least 5 level-1 patterns are in
working memory, synthesize a level-2 belief entry (importance 0.85) referencing
5 of them into working memory. -/
def MemorySystem.abstract_to_belief (ms : MemorySystem) (now : Int) : MemorySystem :=
  let patterns := ms.working_memory.filter (fun m => m.abstraction_level == 1)
  if patterns.length ≥ 5 then
    let belief : MemoryEntry :=
      { id := ms.nextId, memory_type := "belief", abstraction_level := 2,
        created_at := now, access_count := 0, importance := 17/20,
        source_memories := (patterns.take 5).map MemoryEntry.id }
    { ms with working_memory := ms.working_memory ++ [belief], nextId := ms.nextId + 1 }
  else ms

/-- `MemorySystem._check_abstraction_opportunities`: pattern promotion when the
short-term tier has reached the threshold, then belief promotion when at least
5 level-1 patterns exist. -/
def MemorySystem.check_abstraction_opportunities (ms : MemorySystem) (now : Int) : MemorySystem :=
  let ms1 := if ms.short_term_memory.length ≥ raw_to_pattern_threshold
             then ms.abstract_to_pattern now else ms
  if (ms1.working_memory.filter (fun m => m.abstraction_level == 1)).length ≥ 5
  then ms1.abstract_to_belief now
  else ms1

/-- `MemorySystem.store_raw_memory`: create a level-0 entry (importance 0.5) in
short-term, then trigger the abstraction check.  Returns the entry and the new
state. -/
def MemorySystem.store_raw_memory (ms : MemorySystem) (memory_type : String) (now : Int) :
    MemoryEntry × MemorySystem :=
  let entry : MemoryEntry :=
    { id := ms.nextId, memory_type := memory_type, abstraction_level := 0,
      created_at := now, access_count := 0, importance := 1/2, source_memories := [] }
  (entry,
   MemorySystem.check_abstraction_opportunities
     { ms with short_term_memory := ms.short_term_memory ++ [entry], nextId := ms.nextId + 1 }
     now)

/-- The removal condition of `MemorySystem.consolidate_memories`:
`(utcnow() - created_at).days > 7 and importance < 0.3 and access_count < 2`. -/
def consolidationCandidate (now : Int) (m : MemoryEntry) : Bool :=
  decide (Int.fdiv (now - m.created_at) 86400 > 7) &&
    decide (m.importance < 3/10) && decide (m.access_count < 2)

/-- `MemorySystem.consolidate_memories`: collect the ids of qualifying short-term
entries, delete each collected id from the short-term tier, and return how many
were collected. -/
def MemorySystem.consolidate_memories (ms : MemorySystem) (now : Int) : Nat × MemorySystem :=
  let to_remove := (ms.short_term_memory.filter (consolidationCandidate now)).map MemoryEntry.id
  (to_remove.length,
   { ms with short_term_memory :=
      ms.short_term_memory.filter (fun m => !(to_remove.contains m.id)) })

/-- Fold a sequence of `store_raw_memory` calls (memory type, timestamp) over a
fresh memory system. -/
def runStores (l : List (String × Int)) : MemorySystem :=
  l.foldl (fun ms ci => (ms.store_raw_memory ci.1 ci.2).2) mkMemorySystem

/-! ## learning_engine.py -/

/-- One hypothesis about the user (`class Theory`). -/
structure Theory where
  id : Nat
  hypothesis : String
  category : String
  strength : ℚ
  evidence_for : ℚ
  evidence_against : ℚ
  tests_performed : Nat
deriving DecidableEq

/-- `Theory.__init__`: strength 0.5, no evidence, no tests. -/
def mkTheory (id : Nat) (hypothesis : String) (category : String) : Theory :=
  { id := id, hypothesis := hypothesis, category := category, strength := 1/2,
    evidence_for := 0, evidence_against := 0, tests_performed := 0 }

/-- `Theory.test`: bump `tests_performed`, accumulate the weight on the side the
outcome selects, then recompute `strength = evidence_for / total` when the total
evidence is positive (else leave it unchanged). -/
def Theory.test (t : Theory) (outcome : Bool) (weight : ℚ) : Theory :=
  let t1 := { t with tests_performed := t.tests_performed + 1 }
  let t2 := if outcome then { t1 with evidence_for := t1.evidence_for + weight }
            else { t1 with evidence_against := t1.evidence_against + weight }
  let total := t2.evidence_for + t2.evidence_against
  if total > 0 then { t2 with strength := t2.evidence_for / total } else t2

/-- `Theory.merge_with`: conjunctive hypothesis, mean strength, summed evidence
accumulators and test counts. -/
def Theory.merge_with (t : Theory) (other : Theory) (merged_id : Nat) : Theory :=
  { mkTheory merged_id (t.hypothesis ++ " AND " ++ other.hypothesis) t.category with
    strength := (t.strength + other.strength) / 2,
    evidence_for := t.evidence_for + other.evidence_for,
    evidence_against := t.evidence_against + other.evidence_against,
    tests_performed := t.tests_performed + other.tests_performed }

/-- One entry of the in-memory prediction history (`predict_user_response`'s
prediction dict; `reasoning` holds (hypothesis, strength) pairs). -/
structure Prediction where
  likely_response_type : String
  confidence : ℚ
  reasoning : List (String × ℚ)
deriving DecidableEq

/-- `class LearningEngine`: live theory set, prediction history, id supply. -/
structure LearningEngine where
  theories : List Theory
  prediction_history : List Prediction
  nextId : Nat
deriving DecidableEq

/-- Pruning filter of `_evolve_theories`: a theory is kept unless
`tests_performed > 20 and strength < 0.2`. -/
def theoryKept (t : Theory) : Bool :=
  !(decide (t.tests_performed > 20) && decide (t.strength < 1/5))

/-- Merge qualification of `_evolve_theories`: `strength > 0.7 and
tests_performed > 10`. -/
def theoryStrong (t : Theory) : Bool :=
  decide (t.strength > 7/10) && decide (t.tests_performed > 10)

/-- `LearningEngine._evolve_theories`: drop the weak theories, then if at least
two remaining theories qualify as strong, merge the first two encountered and
insert the merged theory; the two parents are not removed. -/
def LearningEngine.evolve_theories (le : LearningEngine) : LearningEngine :=
  let kept := le.theories.filter theoryKept
  match kept.filter theoryStrong with
  | t1 :: t2 :: _ =>
      { le with theories := kept ++ [t1.merge_with t2 le.nextId], nextId := le.nextId + 1 }
  | _ => { le with theories := kept }

/-- `LearningEngine.predict_user_response`: theories with strength above 0.6 are
relevant; up to 5 of them become the reasoning; confidence is the mean of all
relevant strengths (0.5 when none qualify); the prediction is appended to the
in-memory history. -/
def LearningEngine.predict_user_response (le : LearningEngine) : Prediction × LearningEngine :=
  let relevant := le.theories.filter (fun t => decide (t.strength > 3/5))
  let reasoning := (relevant.take 5).map (fun t => (t.hypothesis, t.strength))
  let confidence : ℚ :=
    if relevant.isEmpty then 1/2 else (relevant.map Theory.strength).sum / relevant.length
  let p : Prediction :=
    { likely_response_type := "neutral", confidence := confidence, reasoning := reasoning }
  (p, { le with prediction_history := le.prediction_history ++ [p] })

/-! ## Helper lemmas -/

/-- Folding the EMA update over feedbacks in [0,1] keeps the strength in [0,1]. -/
theorem ema_fold_bounds (fs : List ℚ) (b : Brain)
    (hb0 : 0 ≤ b.strength) (hb1 : b.strength ≤ 1)
    (hfs : ∀ g ∈ fs, 0 ≤ g ∧ g ≤ 1) :
    0 ≤ (fs.foldl Brain.update_strength b).strength ∧
      (fs.foldl Brain.update_strength b).strength ≤ 1 := by
  induction fs generalizing b with
  | nil => exact ⟨hb0, hb1⟩
  | cons g gs ih =>
    have hg := hfs g (List.mem_cons_self g gs)
    refine ih (b.update_strength g) ?_ ?_ (fun x hx => hfs x (List.mem_cons_of_mem g hx))
    · simp only [Brain.update_strength]
      linarith [hg.1, hg.2]
    · simp only [Brain.update_strength]
      linarith [hg.1, hg.2]

/-! ## Claim theorems -/

/-- C7: each `update_strength` call replaces the strength by
`0.8*strength + 0.2*feedback`; for strength and feedback in [0,1] the new
strength stays in [0,1] (hence it does so along every feedback sequence in
[0,1]); and the distance to the feedback value contracts by the factor 0.8 on
every call, so under repeated identical feedback f the strength converges
toward f. -/
theorem C7_ema_invariant (b : Brain) (f : ℚ)
    (hb0 : 0 ≤ b.strength) (hb1 : b.strength ≤ 1)
    (hf0 : 0 ≤ f) (hf1 : f ≤ 1) :
    (b.update_strength f).strength = 0.8 * b.strength + 0.2 * f ∧
    (0 ≤ (b.update_strength f).strength ∧ (b.update_strength f).strength ≤ 1) ∧
    |(b.update_strength f).strength - f| = 0.8 * |b.strength - f| ∧
    ∀ fs : List ℚ, (∀ g ∈ fs, 0 ≤ g ∧ g ≤ 1) →
      0 ≤ (fs.foldl Brain.update_strength b).strength ∧
        (fs.foldl Brain.update_strength b).strength ≤ 1 := by
  refine ⟨?_, ⟨?_, ?_⟩, ?_, fun fs hfs => ema_fold_bounds fs b hb0 hb1 hfs⟩
  · simp only [Brain.update_strength]
    norm_num
  · simp only [Brain.update_strength]
    linarith
  · simp only [Brain.update_strength]
    linarith
  · simp only [Brain.update_strength]
    have h : 4/5 * b.strength + 1/5 * f - f = 4/5 * (b.strength - f) := by ring
    rw [h, abs_mul]
    norm_num

/-- Witness for C7 at the fresh unit (strength 0.5) and feedback 1. -/
theorem C7_ema_invariant_witness :
    (0 ≤ (mkBrain 0 "emotion_analyzer").strength ∧
      (mkBrain 0 "emotion_analyzer").strength ≤ 1 ∧
      (0:ℚ) ≤ 1 ∧ (1:ℚ) ≤ 1) ∧
    (((mkBrain 0 "emotion_analyzer").update_strength 1).strength =
        0.8 * (mkBrain 0 "emotion_analyzer").strength + 0.2 * 1 ∧
      (0 ≤ ((mkBrain 0 "emotion_analyzer").update_strength 1).strength ∧
        ((mkBrain 0 "emotion_analyzer").update_strength 1).strength ≤ 1) ∧
      |((mkBrain 0 "emotion_analyzer").update_strength 1).strength - 1| =
        0.8 * |(mkBrain 0 "emotion_analyzer").strength - 1| ∧
      ∀ fs : List ℚ, (∀ g ∈ fs, 0 ≤ g ∧ g ≤ 1) →
        0 ≤ (fs.foldl Brain.update_strength (mkBrain 0 "emotion_analyzer")).strength ∧
          (fs.foldl Brain.update_strength (mkBrain 0 "emotion_analyzer")).strength ≤ 1) ∧
    ((mkBrain 0 "emotion_analyzer").update_strength 1).strength = 3/5 :=
  ⟨⟨by norm_num [mkBrain], by norm_num [mkBrain], by norm_num, by norm_num⟩,
   C7_ema_invariant (mkBrain 0 "emotion_analyzer") 1
     (by norm_num [mkBrain]) (by norm_num [mkBrain]) (by norm_num) (by norm_num),
   by norm_num [mkBrain, Brain.update_strength]⟩

/-- The evidence accumulator `Theory.test` leaves on the supporting side. -/
theorem test_evidence_for (t : Theory) (o : Bool) (w : ℚ) :
    (t.test o w).evidence_for = t.evidence_for + (if o then w else 0) := by
  cases o <;> simp [Theory.test] <;> split <;> simp

/-- The evidence accumulator `Theory.test` leaves on the opposing side. -/
theorem test_evidence_against (t : Theory) (o : Bool) (w : ℚ) :
    (t.test o w).evidence_against = t.evidence_against + (if o then 0 else w) := by
  cases o <;> simp [Theory.test] <;> split <;> simp

/-- `Theory.test` always increments `tests_performed` by one. -/
theorem test_tests_performed (t : Theory) (o : Bool) (w : ℚ) :
    (t.test o w).tests_performed = t.tests_performed + 1 := by
  cases o <;> simp [Theory.test] <;> split <;> simp

/-- Strength after a supporting test with positive total evidence. -/
theorem test_strength_true (t : Theory) (w : ℚ)
    (h : 0 < t.evidence_for + w + t.evidence_against) :
    (t.test true w).strength = (t.evidence_for + w) / (t.evidence_for + w + t.evidence_against) := by
  simp only [Theory.test]
  simp only [if_true, ite_true]
  rw [if_pos h]

/-- Strength after an opposing test with positive total evidence. -/
theorem test_strength_false (t : Theory) (w : ℚ)
    (h : 0 < t.evidence_for + (t.evidence_against + w)) :
    (t.test false w).strength = t.evidence_for / (t.evidence_for + (t.evidence_against + w)) := by
  simp only [Theory.test]
  simp only [Bool.false_eq_true, if_false, ite_false]
  rw [if_pos h]

/-- C5: a fresh theory tested (true, 1.0) has strength exactly 1 and
evidence_for 1; a subsequent (false, 1.0) test yields strength exactly 1/2; and
in general every `test` call that leaves the total evidence positive sets
`strength = evidence_for / (evidence_for + evidence_against)` and increments
`tests_performed` by one. -/
theorem C5_theory_test (t : Theory) (o : Bool) (w : ℚ)
    (h : (t.test o w).evidence_for + (t.test o w).evidence_against > 0) :
    ((mkTheory 0 "User tends to behave" "behavior").test true 1).strength = 1 ∧
    ((mkTheory 0 "User tends to behave" "behavior").test true 1).evidence_for = 1 ∧
    (((mkTheory 0 "User tends to behave" "behavior").test true 1).test false 1).strength = 1/2 ∧
    (t.test o w).strength =
      (t.test o w).evidence_for / ((t.test o w).evidence_for + (t.test o w).evidence_against) ∧
    (t.test o w).tests_performed = t.tests_performed + 1 := by
  refine ⟨by norm_num [Theory.test, mkTheory], by norm_num [Theory.test, mkTheory],
    by norm_num [Theory.test, mkTheory], ?_, test_tests_performed t o w⟩
  rw [test_evidence_for, test_evidence_against] at h ⊢
  cases o
  · simp only [Bool.false_eq_true, if_false, ite_false] at h ⊢
    have h' : 0 < t.evidence_for + (t.evidence_against + w) := by linarith
    rw [test_strength_false t w h']
    ring_nf
  · simp only [if_true, ite_true] at h ⊢
    have h' : 0 < t.evidence_for + w + t.evidence_against := by linarith
    rw [test_strength_true t w h']
    ring_nf

/-- Witness for C5 at a fresh theory, outcome true, weight 1. -/
theorem C5_theory_test_witness :
    ((mkTheory 1 "User tends to behave" "behavior").test true 1).evidence_for +
        ((mkTheory 1 "User tends to behave" "behavior").test true 1).evidence_against > 0 ∧
    (((mkTheory 0 "User tends to behave" "behavior").test true 1).strength = 1 ∧
      ((mkTheory 0 "User tends to behave" "behavior").test true 1).evidence_for = 1 ∧
      (((mkTheory 0 "User tends to behave" "behavior").test true 1).test false 1).strength = 1/2 ∧
      ((mkTheory 1 "User tends to behave" "behavior").test true 1).strength =
        ((mkTheory 1 "User tends to behave" "behavior").test true 1).evidence_for /
          (((mkTheory 1 "User tends to behave" "behavior").test true 1).evidence_for +
            ((mkTheory 1 "User tends to behave" "behavior").test true 1).evidence_against) ∧
      ((mkTheory 1 "User tends to behave" "behavior").test true 1).tests_performed =
        (mkTheory 1 "User tends to behave" "behavior").tests_performed + 1) :=
  ⟨by norm_num [Theory.test, mkTheory],
   C5_theory_test (mkTheory 1 "User tends to behave" "behavior") true 1
     (by norm_num [Theory.test, mkTheory])⟩

/-- C3 (amended): `merge_brains` fails with the InsufficientUnits validation
error (the ValueError) exactly when fewer than 2 ids are supplied; the liveness
of the supplied ids is not validated. -/
theorem C3_merge_validation (bm : BrainManager) (ids : List Nat) (new_role : String) :
    bm.merge_brains ids new_role = .error .insufficientUnits ↔ ids.length < 2 := by
  by_cases h : ids.length < 2 <;> simp [BrainManager.merge_brains, h]

/-- C3 counterexample to the claim as stated: supplying two ids that refer to no
live unit does not fail — the call succeeds and creates a merged unit (of
strength 0). -/
theorem C3_counterexample :
    BrainManager.merge_brains { brains := [], nextId := 0 } [10, 11] "merged_analyzer" =
      .ok ({ id := 0, role := "merged_analyzer", strength := 0, active := true,
             analysisCount := 0 },
           { brains := [{ id := 0, role := "merged_analyzer", strength := 0, active := true,
                          analysisCount := 0 }],
             nextId := 1 }) := by
  norm_num [BrainManager.merge_brains, BrainManager.create_brain, mkBrain,
    BrainManager.terminate_brain]

/-- Counting lemma for the fan-out: findings plus caught failures account for
every active unit. -/
theorem analyze_catch_count (l : List Brain) (raises : Brain → Bool) :
    (l.filterMap (fun b => if raises b then none else some (b.analyze).1)).length +
      (l.filter raises).length = l.length := by
  induction l with
  | nil => simp
  | cons hd tl ih =>
    by_cases h : raises hd <;> simp [h, List.filterMap_cons, List.filter_cons] <;> omega

/-- C8: when exactly one active unit's analyze call raises, the fan-out returns
exactly N−1 findings for N active units (and, being a total function, never
propagates the exception). -/
theorem C8_fanout_partial_failure (bm : BrainManager) (raises : Brain → Bool)
    (h : (bm.get_active_brains.filter raises).length = 1) :
    (bm.analyze_with_all_brains raises).length = bm.get_active_brains.length - 1 := by
  have hc := analyze_catch_count bm.get_active_brains raises
  unfold BrainManager.analyze_with_all_brains
  omega

/-- Witness for C8: three active units of which exactly the one with id 1
raises; the fan-out returns 2 = 3 − 1 findings. -/
theorem C8_fanout_partial_failure_witness :
    ((BrainManager.get_active_brains
        { brains := [mkBrain 0 "emotion_analyzer", mkBrain 1 "pattern_detector",
                     mkBrain 2 "topic_tracker"], nextId := 3 }).filter
      (fun b => b.id == 1)).length = 1 ∧
    (BrainManager.analyze_with_all_brains
        { brains := [mkBrain 0 "emotion_analyzer", mkBrain 1 "pattern_detector",
                     mkBrain 2 "topic_tracker"], nextId := 3 }
        (fun b => b.id == 1)).length =
      (BrainManager.get_active_brains
        { brains := [mkBrain 0 "emotion_analyzer", mkBrain 1 "pattern_detector",
                     mkBrain 2 "topic_tracker"], nextId := 3 }).length - 1 :=
  ⟨by norm_num [BrainManager.get_active_brains, mkBrain],
   C8_fanout_partial_failure
     { brains := [mkBrain 0 "emotion_analyzer", mkBrain 1 "pattern_detector",
                  mkBrain 2 "topic_tracker"], nextId := 3 }
     (fun b => b.id == 1)
     (by norm_num [BrainManager.get_active_brains, mkBrain])⟩

/-- C9: `predict_user_response` selects the theories with strength above 0.6,
takes at most 5 of them as reasoning support, sets confidence to the mean of the
selected theories' strengths (0.5 when none qualify), and appends the prediction
to the in-memory history, growing it by exactly one. -/
theorem C9_predict (le : LearningEngine) :
    (le.predict_user_response).1.reasoning.length =
      min (le.theories.filter (fun t => decide (t.strength > 3/5))).length 5 ∧
    (∀ r ∈ (le.predict_user_response).1.reasoning,
      ∃ t ∈ le.theories.filter (fun t => decide (t.strength > 3/5)),
        r = (t.hypothesis, t.strength)) ∧
    (le.predict_user_response).1.confidence =
      (if (le.theories.filter (fun t => decide (t.strength > 3/5))).isEmpty then 1/2
       else ((le.theories.filter (fun t => decide (t.strength > 3/5))).map Theory.strength).sum /
         (le.theories.filter (fun t => decide (t.strength > 3/5))).length) ∧
    (le.predict_user_response).2.prediction_history.length =
      le.prediction_history.length + 1 := by
  refine ⟨?_, ?_, rfl, ?_⟩
  · simp [LearningEngine.predict_user_response, List.length_take, Nat.min_comm]
  · intro r hr
    simp only [LearningEngine.predict_user_response, List.mem_map] at hr
    obtain ⟨t, ht, rfl⟩ := hr
    exact ⟨t, List.take_subset 5 _ ht, rfl⟩
  · simp [LearningEngine.predict_user_response]

/-- C2 counterexample to the claim as stated: an engine with two qualifying
theories (strength 0.8 = 8/10 evidence ratio, 11 tests each).  The evolution
step adds the merged theory (id 2) but both parents (ids 0 and 1) are still in
the live theory set afterwards. -/
theorem C2_counterexample :
    (LearningEngine.evolve_theories
      { theories :=
          [{ id := 0, hypothesis := "A", category := "behavior", strength := 4/5,
             evidence_for := 8, evidence_against := 2, tests_performed := 11 },
           { id := 1, hypothesis := "B", category := "behavior", strength := 4/5,
             evidence_for := 8, evidence_against := 2, tests_performed := 11 }],
        prediction_history := [], nextId := 2 }).theories.map Theory.id = [0, 1, 2] := by
  norm_num [LearningEngine.evolve_theories, theoryKept, theoryStrong, Theory.merge_with,
    mkTheory, List.filter]

/-- C2 (amended): when the evolution step finds two qualifying theories
(strength > 0.7, more than 10 tests, first two in iteration order among the
surviving theories), the merged conjunctive theory is added to the live set, but
the parents are NOT removed: after the step both parents remain live alongside
the merged theory. -/
theorem C2_evolve_merge_keeps_parents (le : LearningEngine) (t1 t2 : Theory)
    (rest : List Theory)
    (h : (le.theories.filter theoryKept).filter theoryStrong = t1 :: t2 :: rest) :
    (le.evolve_theories).theories =
      le.theories.filter theoryKept ++ [t1.merge_with t2 le.nextId] ∧
    t1 ∈ (le.evolve_theories).theories ∧ t2 ∈ (le.evolve_theories).theories ∧
    t1.merge_with t2 le.nextId ∈ (le.evolve_theories).theories := by
  have ht1 : t1 ∈ (le.theories.filter theoryKept).filter theoryStrong := by
    rw [h]; exact List.mem_cons_self t1 (t2 :: rest)
  have ht2 : t2 ∈ (le.theories.filter theoryKept).filter theoryStrong := by
    rw [h]; exact List.mem_cons_of_mem t1 (List.mem_cons_self t2 rest)
  have heq : (le.evolve_theories).theories =
      le.theories.filter theoryKept ++ [t1.merge_with t2 le.nextId] := by
    simp only [LearningEngine.evolve_theories]
    rw [h]
  refine ⟨heq, ?_, ?_, ?_⟩
  · rw [heq]
    exact List.mem_append_left _ (List.mem_of_mem_filter ht1)
  · rw [heq]
    exact List.mem_append_left _ (List.mem_of_mem_filter ht2)
  · rw [heq]
    exact List.mem_append_right _ (List.mem_singleton_self _)

/-- Witness for C2's amended theorem at the concrete two-theory engine of the
counterexample. -/
theorem C2_evolve_merge_keeps_parents_witness :
    (((LearningEngine.theories
        { theories :=
            [{ id := 0, hypothesis := "A", category := "behavior", strength := 4/5,
               evidence_for := 8, evidence_against := 2, tests_performed := 11 },
             { id := 1, hypothesis := "B", category := "behavior", strength := 4/5,
               evidence_for := 8, evidence_against := 2, tests_performed := 11 }],
          prediction_history := [], nextId := 2 }).filter theoryKept).filter theoryStrong =
        { id := 0, hypothesis := "A", category := "behavior", strength := 4/5,
          evidence_for := 8, evidence_against := 2, tests_performed := 11 } ::
        { id := 1, hypothesis := "B", category := "behavior", strength := 4/5,
          evidence_for := 8, evidence_against := 2, tests_performed := 11 } :: []) ∧
    ({ id := 0, hypothesis := "A", category := "behavior", strength := 4/5,
       evidence_for := 8, evidence_against := 2, tests_performed := 11 } : Theory) ∈
      (LearningEngine.evolve_theories
        { theories :=
            [{ id := 0, hypothesis := "A", category := "behavior", strength := 4/5,
               evidence_for := 8, evidence_against := 2, tests_performed := 11 },
             { id := 1, hypothesis := "B", category := "behavior", strength := 4/5,
               evidence_for := 8, evidence_against := 2, tests_performed := 11 }],
          prediction_history := [], nextId := 2 }).theories :=
  ⟨by norm_num [theoryKept, theoryStrong, List.filter],
   (C2_evolve_merge_keeps_parents
      { theories :=
          [{ id := 0, hypothesis := "A", category := "behavior", strength := 4/5,
             evidence_for := 8, evidence_against := 2, tests_performed := 11 },
           { id := 1, hypothesis := "B", category := "behavior", strength := 4/5,
             evidence_for := 8, evidence_against := 2, tests_performed := 11 }],
        prediction_history := [], nextId := 2 }
      { id := 0, hypothesis := "A", category := "behavior", strength := 4/5,
        evidence_for := 8, evidence_against := 2, tests_performed := 11 }
      { id := 1, hypothesis := "B", category := "behavior", strength := 4/5,
        evidence_for := 8, evidence_against := 2, tests_performed := 11 }
      []
      (by norm_num [theoryKept, theoryStrong, List.filter])).2.1⟩

/-- When every supplied id is live, the guarded strength sum of `merge_brains`
is the sum of the source units' strengths. -/
theorem filterMap_strength_of_live (bm : BrainManager) (ids : List Nat)
    (hlive : ∀ i ∈ ids, (bm.brains.find? (fun b => b.id == i)).isSome) :
    ids.filterMap (fun bid => (bm.brains.find? (fun b => b.id == bid)).map Brain.strength) =
      ids.map (strengthOf bm) := by
  induction ids with
  | nil => rfl
  | cons i rest ih =>
    obtain ⟨b, hb⟩ := Option.isSome_iff_exists.mp (hlive i (List.mem_cons_self i rest))
    have hfa : ((bm.brains.find? (fun x => x.id == i)).map Brain.strength) = some b.strength := by
      rw [hb]; rfl
    simp only [List.filterMap_cons, List.map_cons, hfa,
      ih (fun j hj => hlive j (List.mem_cons_of_mem i hj))]
    have hs : strengthOf bm i = b.strength := by simp [strengthOf, hb]
    rw [hs]

/-- After folding `terminate_brain` over a list of ids, every remaining unit was
already present and has none of those ids. -/
theorem mem_foldl_terminate (ids : List Nat) (bm : BrainManager) (b : Brain)
    (hb : b ∈ (ids.foldl (fun acc bid => acc.terminate_brain bid) bm).brains) :
    b ∈ bm.brains ∧ b.id ∉ ids := by
  induction ids generalizing bm with
  | nil => simpa using hb
  | cons i rest ih =>
    rw [List.foldl_cons] at hb
    obtain ⟨hb1, hb2⟩ := ih (bm.terminate_brain i) hb
    simp only [BrainManager.terminate_brain, List.mem_filter] at hb1
    obtain ⟨hmem, hne⟩ := hb1
    refine ⟨hmem, ?_⟩
    simp only [List.mem_cons, not_or]
    exact ⟨by simpa using hne, hb2⟩

/-- C4: a merge whose (distinct) ids all refer to live units succeeds; the new
unit's strength is `min(1, 1.2 × mean of the source units' strengths)`, and
afterwards every source unit is absent from the active set (terminated). -/
theorem C4_merge_strength_and_termination (bm : BrainManager) (ids : List Nat)
    (new_role : String) (hlen : 2 ≤ ids.length) (_hnd : ids.Nodup)
    (hlive : ∀ i ∈ ids, (bm.brains.find? (fun b => b.id == i)).isSome) :
    ∃ mb bm', bm.merge_brains ids new_role = .ok (mb, bm') ∧
      mb.strength = min 1 ((ids.map (strengthOf bm)).sum / ids.length * (6/5)) ∧
      ∀ b ∈ bm'.get_active_brains, b.id ∉ ids := by
  have hguard : ¬ ids.length < 2 := by omega
  simp only [BrainManager.merge_brains, hguard, if_false, ite_false]
  refine ⟨_, _, rfl, ?_, ?_⟩
  · simp only [filterMap_strength_of_live bm ids hlive]
  · intro b hb
    simp only [BrainManager.get_active_brains] at hb
    exact (mem_foldl_terminate ids _ b (List.mem_of_mem_filter hb)).2

/-- Witness for C4: merging live units of strengths 0.4 and 0.6 succeeds, the
merged strength expression evaluates to min(1, 0.5·1.2) = 0.6, and both sources
leave the active set. -/
theorem C4_merge_strength_and_termination_witness :
    (2 ≤ ([0, 1] : List Nat).length ∧ ([0, 1] : List Nat).Nodup ∧
      ∀ i ∈ ([0, 1] : List Nat),
        ((BrainManager.brains
            { brains := [{ id := 0, role := "emotion_analyzer", strength := 2/5,
                           active := true, analysisCount := 0 },
                         { id := 1, role := "pattern_detector", strength := 3/5,
                           active := true, analysisCount := 0 }],
              nextId := 2 }).find? (fun b => b.id == i)).isSome) ∧
    (∃ mb bm',
      BrainManager.merge_brains
          { brains := [{ id := 0, role := "emotion_analyzer", strength := 2/5,
                         active := true, analysisCount := 0 },
                       { id := 1, role := "pattern_detector", strength := 3/5,
                         active := true, analysisCount := 0 }],
            nextId := 2 } [0, 1] "combined_analyzer" = .ok (mb, bm') ∧
      mb.strength = min 1 ((([0, 1] : List Nat).map (strengthOf
          { brains := [{ id := 0, role := "emotion_analyzer", strength := 2/5,
                         active := true, analysisCount := 0 },
                       { id := 1, role := "pattern_detector", strength := 3/5,
                         active := true, analysisCount := 0 }],
            nextId := 2 })).sum / ([0, 1] : List Nat).length * (6/5)) ∧
      ∀ b ∈ bm'.get_active_brains, b.id ∉ ([0, 1] : List Nat)) ∧
    min 1 ((([0, 1] : List Nat).map (strengthOf
        { brains := [{ id := 0, role := "emotion_analyzer", strength := 2/5,
                       active := true, analysisCount := 0 },
                     { id := 1, role := "pattern_detector", strength := 3/5,
                       active := true, analysisCount := 0 }],
          nextId := 2 })).sum / ([0, 1] : List Nat).length * (6/5)) = 3/5 :=
  ⟨⟨by norm_num, by norm_num, by decide⟩,
   C4_merge_strength_and_termination
     { brains := [{ id := 0, role := "emotion_analyzer", strength := 2/5,
                    active := true, analysisCount := 0 },
                  { id := 1, role := "pattern_detector", strength := 3/5,
                    active := true, analysisCount := 0 }],
       nextId := 2 } [0, 1] "combined_analyzer" (by norm_num) (by norm_num) (by decide),
   by simp [strengthOf, List.find?]; norm_num⟩

/-- C6: one `consolidate_memories` call removes from the short-term tier exactly
the entries satisfying all three conditions (more than 7 full days old AND
importance < 0.3 AND access_count < 2) — an entry missing any one condition
stays — returns the number of entries removed, adds nothing, and leaves the
working-memory tier unchanged. -/
theorem C6_consolidate (ms : MemorySystem) (now : Int)
    (hnd : (ms.short_term_memory.map MemoryEntry.id).Nodup) :
    (ms.consolidate_memories now).1 =
      (ms.short_term_memory.filter (consolidationCandidate now)).length ∧
    (∀ m ∈ ms.short_term_memory,
      (m ∈ (ms.consolidate_memories now).2.short_term_memory ↔
        ¬(7 < Int.fdiv (now - m.created_at) 86400 ∧ m.importance < 3/10 ∧
          m.access_count < 2))) ∧
    (∀ m ∈ (ms.consolidate_memories now).2.short_term_memory,
      m ∈ ms.short_term_memory) ∧
    (ms.consolidate_memories now).2.working_memory = ms.working_memory := by
  refine ⟨by simp [MemorySystem.consolidate_memories], ?_, ?_, rfl⟩
  · intro m hm
    simp only [MemorySystem.consolidate_memories, List.mem_filter]
    constructor
    · rintro ⟨-, hnot⟩
      intro hcond
      have hc : consolidationCandidate now m = true := by
        simp only [consolidationCandidate, Bool.and_eq_true, decide_eq_true_eq, gt_iff_lt]
        exact ⟨⟨hcond.1, hcond.2.1⟩, hcond.2.2⟩
      have hmem : m.id ∈
          (ms.short_term_memory.filter (consolidationCandidate now)).map MemoryEntry.id :=
        List.mem_map_of_mem _ (List.mem_filter.mpr ⟨hm, hc⟩)
      rw [Bool.not_eq_true'] at hnot
      rw [← List.elem_iff] at hmem
      simp [List.contains] at hnot hmem
      obtain ⟨a, ⟨ha, hca⟩, hid⟩ := hmem
      exact hnot a ha hca hid
    · intro hncond
      refine ⟨hm, ?_⟩
      have hni : m.id ∉
          (ms.short_term_memory.filter (consolidationCandidate now)).map MemoryEntry.id := by
        intro hmem
        obtain ⟨m', hm', hid⟩ := List.mem_map.mp hmem
        have hm'mem : m' ∈ ms.short_term_memory := List.mem_of_mem_filter hm'
        have heq : m' = m := List.inj_on_of_nodup_map hnd hm'mem hm hid
        subst heq
        have hc := (List.mem_filter.mp hm').2
        simp only [consolidationCandidate, Bool.and_eq_true, decide_eq_true_eq,
          gt_iff_lt] at hc
        exact hncond ⟨hc.1.1, hc.1.2, hc.2⟩
      rw [Bool.not_eq_true']
      rw [← List.elem_iff] at hni
      simp [List.contains] at hni
      simpa using hni
  · intro m hm
    simp only [MemorySystem.consolidate_memories] at hm
    exact List.mem_of_mem_filter hm

/-- Witness for C6: two distinct-id short-term entries at time 864000 s (10 days
after creation), one qualifying (importance 0.2, 0 accesses) and one kept
(importance 0.5); the call reports exactly 1 removal. -/
theorem C6_consolidate_witness :
    ((MemorySystem.short_term_memory
        { short_term_memory :=
            [{ id := 0, memory_type := "interaction", abstraction_level := 0,
               created_at := 0, access_count := 0, importance := 1/5, source_memories := [] },
             { id := 1, memory_type := "interaction", abstraction_level := 0,
               created_at := 0, access_count := 0, importance := 1/2, source_memories := [] }],
          working_memory := [], nextId := 2 }).map MemoryEntry.id).Nodup ∧
    ((MemorySystem.consolidate_memories
        { short_term_memory :=
            [{ id := 0, memory_type := "interaction", abstraction_level := 0,
               created_at := 0, access_count := 0, importance := 1/5, source_memories := [] },
             { id := 1, memory_type := "interaction", abstraction_level := 0,
               created_at := 0, access_count := 0, importance := 1/2, source_memories := [] }],
          working_memory := [], nextId := 2 } 864000).1 =
      ((MemorySystem.short_term_memory
        { short_term_memory :=
            [{ id := 0, memory_type := "interaction", abstraction_level := 0,
               created_at := 0, access_count := 0, importance := 1/5, source_memories := [] },
             { id := 1, memory_type := "interaction", abstraction_level := 0,
               created_at := 0, access_count := 0, importance := 1/2, source_memories := [] }],
          working_memory := [], nextId := 2 }).filter (consolidationCandidate 864000)).length ∧
      (∀ m ∈ MemorySystem.short_term_memory
          { short_term_memory :=
              [{ id := 0, memory_type := "interaction", abstraction_level := 0,
                 created_at := 0, access_count := 0, importance := 1/5, source_memories := [] },
               { id := 1, memory_type := "interaction", abstraction_level := 0,
                 created_at := 0, access_count := 0, importance := 1/2, source_memories := [] }],
            working_memory := [], nextId := 2 },
        (m ∈ (MemorySystem.consolidate_memories
            { short_term_memory :=
                [{ id := 0, memory_type := "interaction", abstraction_level := 0,
                   created_at := 0, access_count := 0, importance := 1/5, source_memories := [] },
                 { id := 1, memory_type := "interaction", abstraction_level := 0,
                   created_at := 0, access_count := 0, importance := 1/2, source_memories := [] }],
              working_memory := [], nextId := 2 } 864000).2.short_term_memory ↔
          ¬(7 < Int.fdiv (864000 - m.created_at) 86400 ∧ m.importance < 3/10 ∧
            m.access_count < 2))) ∧
      (∀ m ∈ (MemorySystem.consolidate_memories
          { short_term_memory :=
              [{ id := 0, memory_type := "interaction", abstraction_level := 0,
                 created_at := 0, access_count := 0, importance := 1/5, source_memories := [] },
               { id := 1, memory_type := "interaction", abstraction_level := 0,
                 created_at := 0, access_count := 0, importance := 1/2, source_memories := [] }],
            working_memory := [], nextId := 2 } 864000).2.short_term_memory,
        m ∈ MemorySystem.short_term_memory
          { short_term_memory :=
              [{ id := 0, memory_type := "interaction", abstraction_level := 0,
                 created_at := 0, access_count := 0, importance := 1/5, source_memories := [] },
               { id := 1, memory_type := "interaction", abstraction_level := 0,
                 created_at := 0, access_count := 0, importance := 1/2, source_memories := [] }],
            working_memory := [], nextId := 2 }) ∧
      (MemorySystem.consolidate_memories
          { short_term_memory :=
              [{ id := 0, memory_type := "interaction", abstraction_level := 0,
                 created_at := 0, access_count := 0, importance := 1/5, source_memories := [] },
               { id := 1, memory_type := "interaction", abstraction_level := 0,
                 created_at := 0, access_count := 0, importance := 1/2, source_memories := [] }],
            working_memory := [], nextId := 2 } 864000).2.working_memory =
        MemorySystem.working_memory
          { short_term_memory :=
              [{ id := 0, memory_type := "interaction", abstraction_level := 0,
                 created_at := 0, access_count := 0, importance := 1/5, source_memories := [] },
               { id := 1, memory_type := "interaction", abstraction_level := 0,
                 created_at := 0, access_count := 0, importance := 1/2, source_memories := [] }],
            working_memory := [], nextId := 2 }) ∧
    (MemorySystem.consolidate_memories
        { short_term_memory :=
            [{ id := 0, memory_type := "interaction", abstraction_level := 0,
               created_at := 0, access_count := 0, importance := 1/5, source_memories := [] },
             { id := 1, memory_type := "interaction", abstraction_level := 0,
               created_at := 0, access_count := 0, importance := 1/2, source_memories := [] }],
          working_memory := [], nextId := 2 } 864000).1 = 1 :=
  ⟨by decide,
   C6_consolidate
     { short_term_memory :=
         [{ id := 0, memory_type := "interaction", abstraction_level := 0,
            created_at := 0, access_count := 0, importance := 1/5, source_memories := [] },
          { id := 1, memory_type := "interaction", abstraction_level := 0,
            created_at := 0, access_count := 0, importance := 1/2, source_memories := [] }],
       working_memory := [], nextId := 2 } 864000 (by decide),
   by norm_num [MemorySystem.consolidate_memories, consolidationCandidate, List.filter,
     Int.fdiv]⟩

/-- Inserting into the sort accumulator is a permutation of consing. -/
theorem insertByCreated_perm (x : MemoryEntry) (l : List MemoryEntry) :
    (insertByCreated x l).Perm (x :: l) := by
  induction l with
  | nil => simp [insertByCreated]
  | cons y ys ih =>
    simp only [insertByCreated]
    split
    · exact (ih.cons y).trans (List.Perm.swap x y ys)
    · exact List.Perm.refl _

/-- The insertion-sort fold permutes the accumulator plus the input. -/
theorem foldl_insertByCreated_perm (l acc : List MemoryEntry) :
    (l.foldl (fun a x => insertByCreated x a) acc).Perm (acc ++ l) := by
  induction l generalizing acc with
  | nil => simp
  | cons x xs ih =>
    rw [List.foldl_cons]
    refine (ih (insertByCreated x acc)).trans ?_
    refine ((insertByCreated_perm x acc).append_right xs).trans ?_
    simpa using List.perm_middle.symm

/-- Sorting by creation time permutes the list. -/
theorem sortByCreated_perm (l : List MemoryEntry) : (sortByCreated l).Perm l := by
  simpa [sortByCreated] using foldl_insertByCreated_perm l []

/-- When the short-term tier holds exactly 5 entries, the pattern promotion
selects all of them and its deletion loop empties the tier. -/
theorem abstract_to_pattern_drains (ms : MemorySystem) (now : Int)
    (h : ms.short_term_memory.length = 5) :
    (ms.abstract_to_pattern now).short_term_memory = [] := by
  simp only [MemorySystem.abstract_to_pattern]
  apply List.filter_eq_nil_iff.mpr
  intro a ha
  obtain ⟨m, hm, rfl⟩ := List.mem_map.mp ha
  have hsorted_len : (sortByCreated ms.short_term_memory).length = 5 := by
    rw [(sortByCreated_perm ms.short_term_memory).length_eq, h]
  have htake : (sortByCreated ms.short_term_memory).take raw_to_pattern_threshold =
      sortByCreated ms.short_term_memory :=
    List.take_of_length_le (by simp [hsorted_len, raw_to_pattern_threshold])
  have hm_sorted : m ∈ sortByCreated ms.short_term_memory :=
    (sortByCreated_perm ms.short_term_memory).mem_iff.mpr hm
  have hm_take : m ∈ (sortByCreated ms.short_term_memory).take raw_to_pattern_threshold := by
    rw [htake]; exact hm_sorted
  have hid : m.id ∈
      ((sortByCreated ms.short_term_memory).take raw_to_pattern_threshold).map
        MemoryEntry.id :=
    List.mem_map_of_mem _ hm_take
  have hid2 : m.id ∈ (List.map MemoryEntry.id (sortByCreated ms.short_term_memory)).take
      raw_to_pattern_threshold := by
    rw [← List.map_take]; exact hid
  split <;> simp [hid2]

/-- The belief promotion never touches the short-term tier. -/
theorem abstract_to_belief_short (ms : MemorySystem) (now : Int) :
    (ms.abstract_to_belief now).short_term_memory = ms.short_term_memory := by
  simp only [MemorySystem.abstract_to_belief]
  split <;> rfl

/-- Short-term length after one abstraction check: a full tier (exactly the
threshold, given the ≤ 5 bound) drains to zero, anything shorter is unchanged. -/
theorem check_short_length (ms : MemorySystem) (now : Int)
    (h : ms.short_term_memory.length ≤ 5) :
    (ms.check_abstraction_opportunities now).short_term_memory.length =
      ms.short_term_memory.length % 5 := by
  by_cases hc : ms.short_term_memory.length ≥ raw_to_pattern_threshold
  · have h5 : ms.short_term_memory.length = 5 := by
      simp only [raw_to_pattern_threshold] at hc; omega
    have hd := abstract_to_pattern_drains ms now h5
    simp only [MemorySystem.check_abstraction_opportunities, hc, ite_true, if_true]
    split
    · rw [abstract_to_belief_short, hd, h5]; rfl
    · rw [hd, h5]; rfl
  · have h5 : ms.short_term_memory.length < 5 := by
      simp only [raw_to_pattern_threshold] at hc; omega
    simp only [MemorySystem.check_abstraction_opportunities, hc, ite_false, if_false]
    split
    · rw [abstract_to_belief_short, Nat.mod_eq_of_lt h5]
    · rw [Nat.mod_eq_of_lt h5]

/-- One `store_raw_memory` call advances the short-term length by one modulo the
promotion threshold. -/
theorem store_step (ms : MemorySystem) (ty : String) (now : Int)
    (h : ms.short_term_memory.length ≤ 4) :
    ((ms.store_raw_memory ty now).2).short_term_memory.length =
      (ms.short_term_memory.length + 1) % 5 := by
  simp only [MemorySystem.store_raw_memory]
  rw [check_short_length _ now (by simp; omega)]
  simp

/-- Folding stores keeps the short-term length congruent to the running count
modulo 5. -/
theorem runStores_step_aux (l : List (String × Int)) (ms : MemorySystem)
    (h : ms.short_term_memory.length ≤ 4) :
    (l.foldl (fun a ci => (a.store_raw_memory ci.1 ci.2).2) ms).short_term_memory.length =
      (ms.short_term_memory.length + l.length) % 5 := by
  induction l generalizing ms with
  | nil => simpa using (Nat.mod_eq_of_lt (by omega)).symm
  | cons c cs ih =>
    rw [List.foldl_cons]
    have hstep := store_step ms c.1 c.2 h
    have hbound : ((ms.store_raw_memory c.1 c.2).2).short_term_memory.length ≤ 4 := by
      rw [hstep]; omega
    rw [ih _ hbound, hstep, List.length_cons]
    omega

/-- C10: starting from an empty store, after every sequence of `store_raw_memory`
calls the short-term tier holds `count mod 5` entries — so it never exceeds 4 and
drains to 0 at every fifth store, when the promotion deletes all five raw
entries. -/
theorem C10_short_term_drains (l : List (String × Int)) :
    (runStores l).short_term_memory.length = l.length % 5 ∧
    (runStores l).short_term_memory.length ≤ 4 := by
  have h : (runStores l).short_term_memory.length = l.length % 5 := by
    have haux := runStores_step_aux l mkMemorySystem (by simp [mkMemorySystem])
    simpa [runStores, mkMemorySystem] using haux
  exact ⟨h, by rw [h]; omega⟩

/-- C1 (evaluation of the code at the failing input): after 5 stores into an
empty system, the pattern promotion has fired — working memory holds exactly one
level-1 pattern of importance 0.7 referencing the 5 source ids — but the
short-term tier is empty: the deletion loop of `_abstract_to_pattern` removed
every source entry, so none remains retrievable from the tier. -/
theorem C1_promotion_deletes_sources :
    (runStores [("interaction", 0), ("interaction", 1), ("interaction", 2),
      ("interaction", 3), ("interaction", 4)]).short_term_memory = [] ∧
    (runStores [("interaction", 0), ("interaction", 1), ("interaction", 2),
      ("interaction", 3), ("interaction", 4)]).working_memory.map
        (fun m => (m.abstraction_level, m.importance, m.source_memories)) =
      [(1, 7/10, [0, 1, 2, 3, 4])] := by
  constructor <;>
    norm_num [runStores, mkMemorySystem, MemorySystem.store_raw_memory,
      MemorySystem.check_abstraction_opportunities, MemorySystem.abstract_to_pattern,
      MemorySystem.abstract_to_belief, sortByCreated, insertByCreated,
      raw_to_pattern_threshold, List.filter, List.foldl]
